import Mathlib

/-!
Shallow embedding of `core/actionProxy/actionproxy.py` (OpenWhisk docker
runtime action proxy) and proofs about the claims on its specification.

The embedding models:
  * JSON values as the Python `json` module handles them (`Json`), with a
    concrete model of `json.dumps` (default separators, `ensure_ascii`);
    `json.loads` is kept as an abstract parameter of the functions that use
    it, since only the shape of its result matters to the proxy code.
  * `ActionRunner.run` (lines 144-199): the choice of `Popen` argv by the
    MAX_ARG_STRLEN threshold, the splitting of the captured stdout into log
    lines and the candidate result line, the stderr forwarding, and the
    classification of the parsed result.
  * `ActionRunner.init` (lines 66-95) via an oracle for the file-system and
    subclass-hook effects (source write, zip extraction, epilogue, build,
    verify).
  * the Flask routes `/init`, `/run`, `/onstart`, `/onpause`, `/onfinish`
    (lines 236-338) as pure state-transition functions that also report the
    bytes written to the process stdout/stderr streams.

Process streams are modelled as lists of write calls; `os.environ` is
modelled as a name-to-value mapping threaded explicitly through the
functions that the Python code lets mutate it in place.
-/

namespace ActionProxy

/-- JSON values as Python's `json` module produces them from a request body
(numbers restricted to integers, which is all the claims need). An object is
the ordered association list of its fields, mirroring Python dict insertion
order; keys are unique in any dict obtained from `json.loads`. -/
inductive Json where
  | null
  | bool (b : Bool)
  | num (n : Int)
  | str (s : String)
  | arr (elems : List Json)
  | obj (fields : List (String × Json))
deriving Repr

/-- Python truthiness of a JSON-derived value (`None`, `False`, `0`, `""`,
`[]` and `\x7b\x7d` are falsy). -/
def Json.truthy : Json → Bool
  | .null => false
  | .bool b => b
  | .num n => n != 0
  | .str s => s != ""
  | .arr xs => !xs.isEmpty
  | .obj kvs => !kvs.isEmpty

/-- Python `value is None` test used by `ActionRunner.init` on `message['code']`. -/
def Json.isNull : Json → Bool
  | .null => true
  | _ => false

/-- Python `isinstance(value, dict)` test used by the `/init` and `/run` routes. -/
def Json.isDict : Json → Bool
  | .obj _ => true
  | _ => false

/-- Lower-case hexadecimal digit, as used by Python's `\uXXXX` escapes. -/
def hexDigit (n : Nat) : Char :=
  if n < 10 then Char.ofNat (48 + n) else Char.ofNat (87 + n)

/-- A `\uXXXX` escape for one UTF-16 code unit, as emitted by Python's
`json.dumps` with `ensure_ascii=True`. -/
def uEscape (n : Nat) : List Char :=
  ['\\', 'u', hexDigit (n / 4096 % 16), hexDigit (n / 256 % 16),
   hexDigit (n / 16 % 16), hexDigit (n % 16)]

/-- Model of how CPython's `json.dumps` (with its default `ensure_ascii=True`)
renders one character of a string: the two-character escapes for quote,
backslash and the common control characters, `\uXXXX` for the remaining
control and non-ASCII characters (a surrogate pair for code points beyond the
BMP), and the character itself for printable ASCII. -/
def escapeChar (c : Char) : List Char :=
  if c = '"' then ['\\', '"']
  else if c = '\\' then ['\\', '\\']
  else if c = '\x08' then ['\\', 'b']
  else if c = '\x0c' then ['\\', 'f']
  else if c = '\n' then ['\\', 'n']
  else if c = '\r' then ['\\', 'r']
  else if c = '\t' then ['\\', 't']
  else if c.toNat < 32 then uEscape c.toNat
  else if c.toNat < 127 then [c]
  else if c.toNat < 65536 then uEscape c.toNat
  else uEscape (55296 + (c.toNat - 65536) / 1024) ++ uEscape (56320 + (c.toNat - 65536) % 1024)

/-- String-body escaping of `json.dumps`, character by character. -/
def escapeList : List Char → List Char
  | [] => []
  | c :: cs => escapeChar c ++ escapeList cs

/-- Rendering of a JSON object key by `json.dumps`: a quoted, escaped string. -/
def dumpKey (k : String) : String :=
  "\"" ++ String.mk (escapeList k.data) ++ "\""

mutual

/-- Model of Python `json.dumps` with its default arguments: separators
`', '` and `': '`, `ensure_ascii=True`. This is the serialization applied to
the action arguments in `ActionRunner.run` (line 146). -/
def dumps : Json → String
  | .null => "null"
  | .bool b => if b then "true" else "false"
  | .num n => toString n
  | .str s => "\"" ++ String.mk (escapeList s.data) ++ "\""
  | .arr xs => "[" ++ dumpsElems xs ++ "]"
  | .obj kvs => "\x7b" ++ dumpsFields kvs ++ "\x7d"

/-- Comma-separated rendering of a JSON array body. -/
def dumpsElems : List Json → String
  | [] => ""
  | [x] => dumps x
  | x :: y :: xs => dumps x ++ ", " ++ dumpsElems (y :: xs)

/-- Comma-separated rendering of a JSON object body. -/
def dumpsFields : List (String × Json) → String
  | [] => ""
  | [(k, v)] => dumpKey k ++ ": " ++ dumps v
  | (k, v) :: kv :: kvs => dumpKey k ++ ": " ++ dumps v ++ ", " ++ dumpsFields (kv :: kvs)

end

/-- The characters Python's `str.strip()` removes by default (the ASCII
whitespace characters; the code never feeds it other Unicode whitespace). -/
def isPySpace (c : Char) : Bool :=
  c = ' ' || c = '\t' || c = '\n' || c = '\r' || c = '\x0b' || c = '\x0c'

/-- Remove trailing Python whitespace from a character list. -/
def dropTrailingSpace (l : List Char) : List Char :=
  (l.reverse.dropWhile isPySpace).reverse

/-- Model of Python `str.strip()` on the character list of a string. -/
def stripList (l : List Char) : List Char :=
  dropTrailingSpace (l.dropWhile isPySpace)

/-- Model of Python `str.strip()`. -/
def pyStrip (s : String) : String :=
  String.mk (stripList s.data)

/-- Index of the last occurrence of `c` in `l`, if any: Python's
`str.rfind(c)` restricted to single-character needles. -/
def rfindChar (c : Char) : List Char → Option Nat
  | [] => none
  | x :: xs =>
    match rfindChar c xs with
    | some i => some (i + 1)
    | none => if x = c then some 0 else none

/-- Lines 178-187 of `ActionRunner.run`: find the last newline of the
captured stdout, ignoring a possible newline in the final position
(`o.rfind('\n', 0, len(o) - 1)`). Everything after it, stripped, is the
candidate result line (first component); everything up to and including it is
emitted as log output (second component, empty string when no newline was
found, in which case nothing is written). -/
def splitOutput (o : String) : String × String :=
  match rfindChar '\n' (o.data.take (o.data.length - 1)) with
  | some i => (pyStrip (String.mk (o.data.drop (i + 1))), String.mk (o.data.take (i + 1)))
  | none => (pyStrip o, "")

/-- A stdout stream consisting of the given log lines, each terminated by a
newline (the shape the claims about log forwarding quantify over). -/
def logsOf : List String → String
  | [] => ""
  | l :: ls => l ++ "\n" ++ logsOf ls

/-- One `subprocess.Popen` invocation: the argv vector and the bytes written
to the child's stdin by `communicate`. -/
structure SpawnCall where
  argv : List String
  stdinData : String
deriving Repr, DecidableEq

/-- The external child process: given the spawn call, either the spawn or the
pipe communication raises (an exception with the given message), or the child
terminates with the captured (stdout, stderr) bytes, already decoded to text. -/
def ChildWorld := SpawnCall → Except String (String × String)

/-- Python `MAX_ARG_STRLEN` from `linux/binfmts.h`, the literal threshold at
line 147 of `actionproxy.py`. -/
def MAX_ARG_STRLEN : Nat := 131071

/-- The argv chosen by lines 147-162 of `ActionRunner.run`: the bare binary
when the serialized arguments exceed `MAX_ARG_STRLEN`, otherwise the binary
together with the serialized arguments as one command-line argument. -/
def spawnCallOf (binary : String) (args : Json) : SpawnCall :=
  if (dumps args).length > MAX_ARG_STRLEN then
    ⟨[binary], dumps args⟩
  else
    ⟨[binary, dumps args], dumps args⟩

/-- The value paired with the status code in `ActionRunner.run`'s return:
either the parsed JSON-object result, or the error dictionary built by
`_error`. The error dictionary holds a string when `_error` received the
offending output line, and the raw exception object when it received the
caught exception of the `Popen`/`communicate` block (a distinction the `/run`
route can observe, because `flask.jsonify` cannot serialize an exception
object). -/
inductive RunValue where
  | dictV (fields : List (String × Json))
  | errStr (msg : String)
  | errExc (msg : String)
deriving Repr

/-- Everything observable about one `ActionRunner.run` call: the status
code/value pair it returns, the spawn call it attempted, and the writes it
performed on the proxy's stdout and stderr. -/
structure RunReturn where
  code : Nat
  result : RunValue
  call : SpawnCall
  outWrites : List String
  errWrites : List String
deriving Repr

/-- Model of `ActionRunner.run` (lines 144-199), with the child process as an
explicit `ChildWorld` and `json.loads` as an abstract parameter `loads`
(`none` models a raised `JSONDecodeError`). Mirrors, in order: the dumps of
the arguments, the threshold choice of argv, `communicate`, the last-line
split of stdout with the log forwarding to `sys.stdout`, the forwarding of a
non-empty stderr capture to `sys.stderr`, and the final parse/classify step,
where `_error` also writes its message plus a newline to stdout. -/
def ActionRunner.run (binary : String) (world : ChildWorld)
    (loads : String → Option Json) (args : Json) : RunReturn :=
  let call := spawnCallOf binary args
  match world call with
  | .error e =>
    -- `except Exception as e: return self._error(e)`
    ⟨502, .errExc e, call, [e ++ "\n"], []⟩
  | .ok (o, e) =>
    let (lastLine, logs) := splitOutput o
    let outLogs : List String := if logs = "" then [] else [logs]
    let errLogs : List String := if e = "" then [] else [e]
    match loads lastLine with
    | some (Json.obj d) => ⟨200, .dictV d, call, outLogs, errLogs⟩
    | some _ => ⟨502, .errStr lastLine, call, outLogs ++ [lastLine ++ "\n"], errLogs⟩
    | none => ⟨502, .errStr lastLine, call, outLogs ++ [lastLine ++ "\n"], errLogs⟩

/-- Return value of an overridable hook (`epilogue`/`build`) as
`ActionRunner.init` inspects it: the only test performed is `is False`, so a
result is either the `False` singleton or anything else (the default
implementations return `None`, i.e. `retOther`). -/
inductive PyRet where
  | retFalse
  | retOther
deriving Repr, DecidableEq

/-- Outcomes of the file-system and subclass-hook effects that
`ActionRunner.init` composes, collapsed to what the control flow of
lines 66-95 observes.

* `writeSource`: `initCodeFromString` writes the code to `self.source` and
  returns `True`; a failing write raises, and the exception propagates out of
  `init` because `prep()` is called outside the `try` block (`none` =
  returned `True`, `some ex` = raised `ex`).
* `zipError`: `initCodeFromZip` catches its own exceptions, printing
  `err <e>` to stdout and returning `False` (`none` = extracted and returned
  `True`, `some ex` = caught `ex`).
* `epilogueRet`/`buildRet`: hook outcome, `Except.error` modelling a raised
  exception (caught by the `try` in `init`).
* `verify`: the result of `os.path.isfile(self.binary) and os.access(self.binary, os.X_OK)`. -/
structure InitOracle where
  writeSource : Option String
  zipError : Option String
  epilogueRet : Except String PyRet
  buildRet : Except String PyRet
  verify : Bool

/-- Everything observable about one `ActionRunner.init` call: the value it
returns (or the exception that escaped it), and its stdout/stderr writes. -/
structure InitResult where
  result : Except String Bool
  outWrites : List String
  errWrites : List String

/-- The test `'code' in message and message['code'] is not None` of
`ActionRunner.init` (line 70). -/
def hasCodeOf (value : List (String × Json)) : Bool :=
  match List.lookup "code" value with
  | some c => !c.isNull
  | none => false

/-- The value `message['binary'] if 'binary' in message else False`
of `ActionRunner.init` (line 71). -/
def binaryFlagOf (value : List (String × Json)) : Json :=
  match List.lookup "binary" value with
  | some b => b
  | none => Json.bool false

/-- Whether a hook outcome makes the `try` block of `ActionRunner.init`
return `False`: it raised, or it returned the value `False`. -/
def hookFails : Except String PyRet → Bool
  | .error _ => true
  | .ok .retFalse => true
  | .ok .retOther => false

/-- Model of `ActionRunner.init` (lines 66-95), parameterized by `ps`, the
Python `str()` rendering used by `log` (framework behaviour, kept abstract),
and by the effect oracle. Control flow mirrors the source: `prep()` logs the
message and dispatches on `'code' in message and message['code'] is not None`
and on the truthiness of `message['binary']` (default `False`); a falsy
`prep()` skips the hook phase but still falls through to `verify()`; a hook
that raises or returns `False` makes `init` return `False` immediately
without running `verify()`; otherwise `verify()` is logged and returned. -/
def ActionRunner.init (ps : Option Json → String) (o : InitOracle)
    (value : List (String × Json)) : InitResult :=
  let logMsg := ps (some (Json.obj value)) ++ "\n"
  let verifiedMsg := (if o.verify then "verified: True" else "verified: False") ++ "\n"
  -- hook phase (the `try` block), entered only when `prep()` returned `True`
  let hookPhase : InitResult :=
    match o.epilogueRet with
    | .error _ => ⟨.ok false, [logMsg], [logMsg]⟩
    | .ok .retFalse => ⟨.ok false, [logMsg], [logMsg]⟩
    | .ok .retOther =>
      match o.buildRet with
      | .error _ => ⟨.ok false, [logMsg], [logMsg]⟩
      | .ok .retFalse => ⟨.ok false, [logMsg], [logMsg]⟩
      | .ok .retOther => ⟨.ok o.verify, [logMsg, verifiedMsg], [logMsg, verifiedMsg]⟩
  if hasCodeOf value then
    if (binaryFlagOf value).truthy then
      match o.zipError with
      | some ex =>
        -- `initCodeFromZip` printed `err <ex>` and returned False: hook phase
        -- skipped, straight to `verify()`
        ⟨.ok o.verify, [logMsg, "err " ++ ex ++ "\n", verifiedMsg], [logMsg, verifiedMsg]⟩
      | none => hookPhase
    else
      match o.writeSource with
      | some ex => ⟨.error ex, [logMsg], [logMsg]⟩
      | none => hookPhase
  else
    ⟨.ok o.verify, [logMsg, "no prep\n", verifiedMsg], [logMsg, "no prep\n", verifiedMsg]⟩

/-- The process environment `os.environ`, as the mapping from variable names
to values. -/
def Environ := String → Option String

/-- Python dict-style assignment `e[k] = v` on the model of `os.environ`. -/
def setItem (e : Environ) (k v : String) : Environ :=
  fun a => if a = k then some v else e a

/-- Python `k.upper()` on the ASCII metadata keys the invoker sends. -/
def pyUpper (s : String) : String :=
  String.mk (s.data.map Char.toUpper)

/-- Model of `ActionRunner.env` (lines 114-120). The Python method binds
`env = os.environ` -- the live process environment, not a copy -- and then
performs `env['__OW_%s' % k.upper()] = v` for every metadata key `k` other
than `'value'`, so every insertion lands directly in the global process
environment; the mapping the method returns and the updated global
environment are one and the same object, which this state-passing model
renders by returning the updated environment state. Assigning a non-string
value to `os.environ` raises `TypeError`, reported in the second component;
the mutations made before the raise persist, as they already happened in
place. -/
def ActionRunner.env (environ : Environ) :
    List (String × Json) → Environ × Option String
  | [] => (environ, none)
  | (k, v) :: rest =>
    if k = "value" then ActionRunner.env environ rest
    else
      match v with
      | Json.str s => ActionRunner.env (setItem environ ("__OW_" ++ pyUpper k) s) rest
      | _ => (environ, some "str expected, not a non-string value")

/-- The module-level mutable flags of the proxy (lines 225-227):
`proxy.rejectReinit`, `proxy.initialized`, `proxy.started`. -/
structure ProxyState where
  rejectReinit : Bool
  initialized : Bool
  started : Bool
deriving Repr, DecidableEq

/-- Body of an HTTP response produced by a route: the plain-text feature
string of a successful `/init`, a `flask.jsonify` JSON body, or the
framework-generated error page of a `flask.abort` or an unhandled exception. -/
inductive Body where
  | text (s : String)
  | jsonBody (j : Json)
  | errorPage
deriving Repr

/-- Everything observable about one route invocation: the proxy state after
it, the HTTP status and body, and the writes on the proxy's stdout/stderr. -/
structure RouteResult where
  state : ProxyState
  status : Nat
  body : Body
  outWrites : List String
  errWrites : List String
deriving Repr

/-- The sentinel line constant `ActionRunner.LOG_SENTINEL` (line 44). -/
def LOG_SENTINEL : String := "XXX_THE_END_OF_A_WHISK_ACTIVATION_XXX"

/-- Composition `error(msg, code)` (lines 273-276): jsonify an error body and
run it through `complete` (lines 335-338), which appends the sentinel line to
both streams. -/
def errorResponse (st : ProxyState) (priorOut priorErr : List String)
    (msg : String) (code : Nat) : RouteResult :=
  ⟨st, code, .jsonBody (.obj [("error", .str msg)]),
    priorOut ++ [LOG_SENTINEL ++ "\n"], priorErr ++ [LOG_SENTINEL ++ "\n"]⟩

/-- Message of the reinit refusal (line 239). -/
def REJECT_INIT_MSG : String := "Cannot initialize the action more than once."

/-- Message of the `/init` failure response (line 263). -/
def INIT_FAIL_MSG : String :=
  "The action failed to generate or locate a binary with exception . See logs for details."

/-- Message of the `/init` exception response (line 256). -/
def initExcMsg (ex : String) : String :=
  "The action failed to generate or locate a binary with exception " ++ ex ++
    ". See logs for details."

/-- Model of the `/init` route (lines 236-263), parameterized like
`ActionRunner.init` plus the parsed request body (`none` when
`request.get_json(force=True, silent=True)` returned `None`). Mirrors, in
order: the reinit guard, `log(message)`, the `flask.abort(404)` checks on a
truthy non-dict message and a non-dict `value`, the guarded call of
`runner.init(value)` whose escaped exception is turned into a 502, and the
success path that resets `started`, sets `initialized` and returns the
feature string with no `complete()` call. -/
def route_init (ps : Option Json → String) (o : InitOracle) (st : ProxyState)
    (reqBody : Option Json) : RouteResult :=
  if st.rejectReinit && st.initialized then
    ⟨st, 403, .jsonBody (.obj [("error", .str REJECT_INIT_MSG)]),
      [LOG_SENTINEL ++ "\n"],
      [REJECT_INIT_MSG ++ "\n", LOG_SENTINEL ++ "\n"]⟩
  else
    let logW := (match reqBody with
      | some j => ps (some j)
      | none => ps none) ++ "\n"
    let truthy := match reqBody with
      | some j => j.truthy
      | none => false
    let isDict := match reqBody with
      | some j => j.isDict
      | none => false
    if truthy && !isDict then
      ⟨st, 404, .errorPage, [logW], [logW]⟩
    else
      let value : Json := match reqBody with
        | some (Json.obj kvs) =>
          if !kvs.isEmpty then (List.lookup "value" kvs).getD (Json.obj []) else Json.obj []
        | _ => Json.obj []
      match value with
      | Json.obj valueKvs =>
        let ir := ActionRunner.init ps o valueKvs
        match ir.result with
        | .error ex =>
          errorResponse st ([logW] ++ ir.outWrites) ([logW] ++ ir.errWrites) (initExcMsg ex) 502
        | .ok true =>
          ⟨{ st with started := false, initialized := true }, 200, .text "OK",
            [logW] ++ ir.outWrites, [logW] ++ ir.errWrites⟩
        | .ok false =>
          errorResponse st ([logW] ++ ir.outWrites) ([logW] ++ ir.errWrites) INIT_FAIL_MSG 502
      | _ => ⟨st, 404, .errorPage, [logW], [logW]⟩

/-- Message of the `/run` argument-shape errors (lines 317 and 321). -/
def RUN_NOT_DICT_MSG : String := "The action did not receive a dictionary as an argument."

/-- Message of the `/run` missing-binary error (line 331). -/
def RUN_NO_BINARY_MSG : String := "The action failed to locate a binary. See logs for details."

/-- Model of the `/run` route (lines 312-332). `verifyNow` is the current
result of `runner.verify()`; `jsonifyExc` is the message of the `TypeError`
that `flask.jsonify` raises when asked to serialize the exception object that
`_error` put into the error dictionary on the spawn-failure path (framework
behaviour, kept abstract). Returns the route result together with the process
environment after the call, since `runner.env` mutates `os.environ` in
place. -/
def route_run (verifyNow : Bool) (world : ChildWorld) (loads : String → Option Json)
    (binary : String) (jsonifyExc : String) (st : ProxyState)
    (environ : Environ) (reqBody : Option Json) :
    RouteResult × Environ :=
  let truthy := match reqBody with
    | some j => j.truthy
    | none => false
  let isDict := match reqBody with
    | some j => j.isDict
    | none => false
  if truthy && !isDict then
    (errorResponse st [] [] RUN_NOT_DICT_MSG 404, environ)
  else
    let args : Json := match reqBody with
      | some (Json.obj kvs) =>
        if !kvs.isEmpty then (List.lookup "value" kvs).getD (Json.obj []) else Json.obj []
      | _ => Json.obj []
    match args with
    | Json.obj argsKvs =>
      if verifyNow then
        -- `runner.env(message or {})`, evaluated inside the route's `try`
        let msgKvs : List (String × Json) := match reqBody with
          | some (Json.obj kvs) => kvs
          | _ => []
        let envPair := ActionRunner.env environ msgKvs
        match envPair.2 with
        | some ex =>
          -- TypeError from the `os.environ` assignment, caught at line 328
          (errorResponse st [] [] ("Internal error. " ++ ex) 500, envPair.1)
        | none =>
          let rr := ActionRunner.run binary world loads (Json.obj argsKvs)
          match rr.result with
          | RunValue.dictV d =>
            (⟨st, rr.code, .jsonBody (.obj d),
              rr.outWrites ++ [LOG_SENTINEL ++ "\n"],
              rr.errWrites ++ [LOG_SENTINEL ++ "\n"]⟩, envPair.1)
          | RunValue.errStr msg =>
            (⟨st, rr.code, .jsonBody (.obj [("error", .str msg)]),
              rr.outWrites ++ [LOG_SENTINEL ++ "\n"],
              rr.errWrites ++ [LOG_SENTINEL ++ "\n"]⟩, envPair.1)
          | RunValue.errExc _ =>
            -- `flask.jsonify` cannot serialize the exception object held in
            -- the error dictionary; its TypeError is caught at line 328 and
            -- surfaced as `error('Internal error. ...', 500)`
            (errorResponse st rr.outWrites rr.errWrites
              ("Internal error. " ++ jsonifyExc) 500, envPair.1)
      else
        (errorResponse st [] [] RUN_NO_BINARY_MSG 502, environ)
    | _ => (errorResponse st [] [] RUN_NOT_DICT_MSG 404, environ)

/-- Outcome of the zero-argument call `runner.start()` at line 288:
`ActionRunner.start` is declared `def start(self, args, env)` (line 132), so
the call raises `TypeError` for the two missing positional arguments. -/
def startCallNoArgs : Except String Unit :=
  Except.error "start() missing 2 required positional arguments: 'args' and 'env'"

/-- Outcome of the zero-argument call `runner.pause()` at line 297:
`ActionRunner.pause` is declared `def pause(self, args, env)` (line 129). -/
def pauseCallNoArgs : Except String Unit :=
  Except.error "pause() missing 2 required positional arguments: 'args' and 'env'"

/-- Outcome of the zero-argument call `runner.stop()` at line 306:
`ActionRunner.stop` is declared `def stop(self, args, env)` (line 126). -/
def stopCallNoArgs : Except String Unit :=
  Except.error "stop() missing 2 required positional arguments: 'args' and 'env'"

/-- Message of the duplicate-start refusal (line 282). -/
def REJECT_START_MSG : String := "Cannot trigger start the action more than once."

/-- Model of the `/onstart` route (lines 279-291). When already started:
stderr message, then `error(msg, 500)` with its sentinel. Otherwise
`proxy.started` is set, `onStart` is logged, and the `runner.start()` call
raises `TypeError` (wrong arity), which escapes the handler; Flask turns the
unhandled exception into a 500 error page. -/
def route_start (st : ProxyState) : RouteResult :=
  if st.started then
    ⟨st, 500, .jsonBody (.obj [("error", .str REJECT_START_MSG)]),
      [LOG_SENTINEL ++ "\n"],
      [REJECT_START_MSG ++ "\n", LOG_SENTINEL ++ "\n"]⟩
  else
    let st2 := { st with started := true }
    match startCallNoArgs with
    | .error _ => ⟨st2, 500, .errorPage, ["onStart\n"], ["onStart\n"]⟩
    | .ok _ =>
      ⟨st2, 200, .jsonBody (.obj [("msg", .str "onStart")]), ["onStart\n"], ["onStart\n"]⟩

/-- Model of the `/onpause` route (lines 294-300): `log("onpause")`, then the
`runner.pause()` call raises `TypeError` (wrong arity) and Flask answers with
a 500 error page; the jsonify success branch is unreachable. -/
def route_pause (st : ProxyState) : RouteResult :=
  match pauseCallNoArgs with
  | .error _ => ⟨st, 500, .errorPage, ["onpause\n"], ["onpause\n"]⟩
  | .ok _ =>
    ⟨st, 200, .jsonBody (.obj [("msg", .str "onpause")]), ["onpause\n"], ["onpause\n"]⟩

/-- Model of the `/onfinish` route (lines 303-309): `log("onfinish")`, then
the `runner.stop()` call raises `TypeError` (wrong arity) and Flask answers
with a 500 error page; the jsonify success branch is unreachable. -/
def route_finish (st : ProxyState) : RouteResult :=
  match stopCallNoArgs with
  | .error _ => ⟨st, 500, .errorPage, ["onfinish\n"], ["onfinish\n"]⟩
  | .ok _ =>
    ⟨st, 200, .jsonBody (.obj [("msg", .str "onfinish")]), ["onfinish\n"], ["onfinish\n"]⟩

/-!
Theorems. Each claim of the specification gets one theorem (with a
counterexample theorem where the claim as stated fails on the code), preceded
by shared helper lemmas.
-/

/-- Every branch of `route_init` either returns status 200 and the state with
`initialized` set and `started` cleared, or a non-200 status and the state
unchanged. -/
theorem route_init_state_dichotomy (ps : Option Json → String) (o : InitOracle)
    (st : ProxyState) (reqBody : Option Json) :
    ((route_init ps o st reqBody).status = 200 ∧
      (route_init ps o st reqBody).state =
        { st with initialized := true, started := false }) ∨
    ((route_init ps o st reqBody).status ≠ 200 ∧
      (route_init ps o st reqBody).state = st) := by
  unfold route_init
  split
  · exact Or.inr ⟨by simp, rfl⟩
  · dsimp only
    split
    · exact Or.inr ⟨by simp, rfl⟩
    · split
      · split <;>
          first
            | exact Or.inl ⟨rfl, rfl⟩
            | exact Or.inr ⟨by simp [errorResponse], by simp [errorResponse]⟩
      · exact Or.inr ⟨by simp, rfl⟩

/-- C4: when the reinitialization policy forbids reinit (`rejectReinit`) and
the proxy is already initialized, any further `/init` call is refused with
the fixed refusal message and HTTP 403 -- a client-class (4xx) status --
without reading the payload, running the runner, or changing the state (the
result does not depend on `ps`, `o` or `reqBody` at all); the sentinel line
is still logged by `complete`. -/
theorem c4_reinit_refused (ps : Option Json → String) (o : InitOracle)
    (st : ProxyState) (reqBody : Option Json)
    (hr : st.rejectReinit = true) (hi : st.initialized = true) :
    route_init ps o st reqBody =
      ⟨st, 403, .jsonBody (.obj [("error", .str REJECT_INIT_MSG)]),
        [LOG_SENTINEL ++ "\n"], [REJECT_INIT_MSG ++ "\n", LOG_SENTINEL ++ "\n"]⟩ ∧
    400 ≤ (route_init ps o st reqBody).status ∧
    (route_init ps o st reqBody).status < 500 := by
  have h : route_init ps o st reqBody =
      ⟨st, 403, .jsonBody (.obj [("error", .str REJECT_INIT_MSG)]),
        [LOG_SENTINEL ++ "\n"], [REJECT_INIT_MSG ++ "\n", LOG_SENTINEL ++ "\n"]⟩ := by
    unfold route_init
    simp [hr, hi]
  exact ⟨h, by simp [h], by simp [h]⟩

/-- Witness for C4 at a concrete refused call. -/
theorem c4_reinit_refused_witness :
    route_init (fun _ => "m")
        ⟨none, none, Except.ok PyRet.retOther, Except.ok PyRet.retOther, false⟩
        ⟨true, true, false⟩ none =
      ⟨⟨true, true, false⟩, 403, .jsonBody (.obj [("error", .str REJECT_INIT_MSG)]),
        [LOG_SENTINEL ++ "\n"], [REJECT_INIT_MSG ++ "\n", LOG_SENTINEL ++ "\n"]⟩ ∧
    400 ≤ (route_init (fun _ => "m")
        ⟨none, none, Except.ok PyRet.retOther, Except.ok PyRet.retOther, false⟩
        ⟨true, true, false⟩ none).status ∧
    (route_init (fun _ => "m")
        ⟨none, none, Except.ok PyRet.retOther, Except.ok PyRet.retOther, false⟩
        ⟨true, true, false⟩ none).status < 500 :=
  c4_reinit_refused _ _ _ _ rfl rfl

/-- C7: every `/onpause` and `/onfinish` call leaves the state untouched but
answers with HTTP 500 rather than success, because `runner.pause()` and
`runner.stop()` are invoked with no arguments while `ActionRunner.pause` and
`ActionRunner.stop` require `(args, env)`: the calls raise `TypeError` and
Flask surfaces the unhandled exception as an error page. This refutes the
claim that every notifyPause/notifyStop call returns success and witnesses
the arity bug in the routes. -/
theorem c7_pause_finish_500 (st : ProxyState) :
    (route_pause st).status = 500 ∧ (route_pause st).state = st ∧
    (route_finish st).status = 500 ∧ (route_finish st).state = st :=
  ⟨rfl, rfl, rfl, rfl⟩

/-- C8 counterexample: a second `/onstart` while `started` is true is indeed
refused with the state unchanged, but with HTTP 500, which is not a
client-class (4xx) status. -/
theorem c8_counterexample :
    (route_start ⟨false, true, true⟩).status = 500 ∧
    (route_start ⟨false, true, true⟩).state = ⟨false, true, true⟩ ∧
    ¬(400 ≤ (route_start ⟨false, true, true⟩).status ∧
      (route_start ⟨false, true, true⟩).status < 500) := by
  refine ⟨rfl, rfl, ?_⟩
  have hs : (route_start ⟨false, true, true⟩).status = 500 := rfl
  omega

/-- C8 as amended: a `/onstart` call while `started` is already true fails
with the fixed refusal message and HTTP 500 -- a server-class (5xx) status,
not a client-class one -- without changing the state, and with the sentinel
logged by `complete`. -/
theorem c8_second_start_fails (st : ProxyState) (h : st.started = true) :
    route_start st =
      ⟨st, 500, .jsonBody (.obj [("error", .str REJECT_START_MSG)]),
        [LOG_SENTINEL ++ "\n"], [REJECT_START_MSG ++ "\n", LOG_SENTINEL ++ "\n"]⟩ ∧
    500 ≤ (route_start st).status ∧ (route_start st).status < 600 := by
  have he : route_start st =
      ⟨st, 500, .jsonBody (.obj [("error", .str REJECT_START_MSG)]),
        [LOG_SENTINEL ++ "\n"], [REJECT_START_MSG ++ "\n", LOG_SENTINEL ++ "\n"]⟩ := by
    unfold route_start
    simp [h]
  exact ⟨he, by simp [he], by simp [he]⟩

/-- C9: whenever an `/init` call answers with status 200 (the only success
answer), the new proxy state has `initialized` set to true and `started`
reset to false (and `rejectReinit` untouched). -/
theorem c9_success_sets_flags (ps : Option Json → String) (o : InitOracle)
    (st : ProxyState) (reqBody : Option Json)
    (h : (route_init ps o st reqBody).status = 200) :
    (route_init ps o st reqBody).state =
      { st with initialized := true, started := false } := by
  rcases route_init_state_dichotomy ps o st reqBody with ⟨_, hs⟩ | ⟨hne, _⟩
  · exact hs
  · exact absurd h hne

/-- Witness for C9 at a concrete successful initialization (empty payload,
binary already present and executable: the `no prep` path). -/
theorem c9_success_sets_flags_witness :
    (route_init (fun _ => "m")
        ⟨none, none, Except.ok PyRet.retOther, Except.ok PyRet.retOther, true⟩
        ⟨true, false, false⟩ (some (Json.obj []))).state =
      ⟨true, true, false⟩ :=
  c9_success_sets_flags _ _ _ _ rfl

/-- Auxiliary for C10: `ActionRunner.env` only assigns variables named
`__OW_<KEY>` for the metadata keys it processes, so any other variable keeps
its value across the call. -/
theorem env_preserves (m : List (String × Json)) (e : Environ) (K : String)
    (h : ∀ kv ∈ m, kv.1 = "value" ∨ "__OW_" ++ pyUpper kv.1 ≠ K) :
    (ActionRunner.env e m).1 K = e K := by
  induction m generalizing e with
  | nil => rfl
  | cons kv rest ih =>
    obtain ⟨k, v⟩ := kv
    by_cases hkv : k = "value"
    · rw [show ActionRunner.env e ((k, v) :: rest) = ActionRunner.env e rest from by
        simp [ActionRunner.env, hkv]]
      exact ih _ fun x hx => h x (List.mem_cons_of_mem _ hx)
    · have hne : "__OW_" ++ pyUpper k ≠ K := by
        rcases h (k, v) (List.mem_cons_self _ _) with h1 | h1
        · exact absurd h1 hkv
        · exact h1
      cases v with
      | str s =>
        rw [show ActionRunner.env e ((k, Json.str s) :: rest)
            = ActionRunner.env (setItem e ("__OW_" ++ pyUpper k) s) rest from by
          simp [ActionRunner.env, hkv]]
        rw [ih _ fun x hx => h x (List.mem_cons_of_mem _ hx)]
        simp only [setItem]
        rw [if_neg (Ne.symm hne)]
      | null => simp [ActionRunner.env, hkv]
      | bool b => simp [ActionRunner.env, hkv]
      | num n => simp [ActionRunner.env, hkv]
      | arr xs => simp [ActionRunner.env, hkv]
      | obj kvs => simp [ActionRunner.env, hkv]

/-- C10: the environment builder writes each `__OW_`-prefixed upper-cased
metadata key directly into the (single, global) process environment state and
returns that state itself, so an entry inserted for one request is still
present after a later `env` call whose metadata does not mention it: the
first conjunct shows the insertion, the second shows persistence across any
later call whose metadata keys do not collide with the variable. -/
theorem c10_env_global_persistence :
    (∀ (e : Environ) (k v : String), k ≠ "value" →
      (ActionRunner.env e [(k, Json.str v)]).1 ("__OW_" ++ pyUpper k) = some v) ∧
    (∀ (e : Environ) (m1 m2 : List (String × Json)) (K w : String),
      (ActionRunner.env e m1).1 K = some w →
      (∀ kv ∈ m2, kv.1 = "value" ∨ "__OW_" ++ pyUpper kv.1 ≠ K) →
      (ActionRunner.env (ActionRunner.env e m1).1 m2).1 K = some w) := by
  constructor
  · intro e k v hk
    simp [ActionRunner.env, hk, setItem]
  · intro e m1 m2 K w h1 h2
    rw [env_preserves m2 _ K h2, h1]

/-- Witness for C10: an `__OW_API_KEY` entry inserted by one call is still
visible through a second call that did not supply it. -/
theorem c10_env_global_persistence_witness :
    (ActionRunner.env (fun _ => none) [("api_key", Json.str "K")]).1 "__OW_API_KEY"
      = some "K" ∧
    (ActionRunner.env (ActionRunner.env (fun _ => none) [("api_key", Json.str "K")]).1
        [("other", Json.str "x")]).1 "__OW_API_KEY" = some "K" := by
  constructor
  · exact c10_env_global_persistence.1 (fun _ => none) "api_key" "K" (by decide)
  · refine c10_env_global_persistence.2 (fun _ => none) _ _ "__OW_API_KEY" "K" rfl ?_
    intro kv hkv
    simp only [List.mem_singleton] at hkv
    subst hkv
    exact Or.inr (by decide)

/-- C3 counterexample: with the binary already present and executable
(`verify` true), an `/init` whose zip materialization fails (bad base64:
`initCodeFromZip` catches the error and returns `False`) does not abort:
`prep()` is falsy, so `init` falls through to `verify()`, returns `True`,
and the route answers 200 and sets `initialized` -- the claim demanded a
server-class failure with `initialized` unchanged. -/
theorem c3_counterexample :
    (route_init (fun _ => "m")
        ⟨none, some "Incorrect padding", Except.ok PyRet.retOther, Except.ok PyRet.retOther, true⟩
        ⟨true, false, false⟩
        (some (Json.obj [("value",
          Json.obj [("code", Json.str "UEs="), ("binary", Json.bool true)])]))).status
      = 200 ∧
    (route_init (fun _ => "m")
        ⟨none, some "Incorrect padding", Except.ok PyRet.retOther, Except.ok PyRet.retOther, true⟩
        ⟨true, false, false⟩
        (some (Json.obj [("value",
          Json.obj [("code", Json.str "UEs="), ("binary", Json.bool true)])]))).state.initialized
      = true ∧
    (⟨true, false, false⟩ : ProxyState).initialized = false := by
  refine ⟨rfl, rfl, rfl⟩

/-- C3 as amended: a failing or raising epilogue/build hook makes
`ActionRunner.init` return `False`, a raising source write escapes `init` as
an exception, and any non-200 `/init` answer leaves the state unchanged; both
runner-level failure modes are surfaced by the route as a 502 with the state
unchanged (the last two conjuncts: the `False` return, and the escaped
exception caught at the route's `try`); but a zip materialization failure
(caught inside `initCodeFromZip`) merely skips the hook phase, and the call
then succeeds or fails according to `verify()` alone. -/
theorem c3_amended (ps : Option Json → String) (o : InitOracle) (st : ProxyState)
    (reqBody : Option Json) (value : List (String × Json)) (ex : String) :
    (hasCodeOf value = true → (binaryFlagOf value).truthy = false →
      o.writeSource = none → (hookFails o.epilogueRet || hookFails o.buildRet) = true →
      (ActionRunner.init ps o value).result = Except.ok false) ∧
    (hasCodeOf value = true → (binaryFlagOf value).truthy = false →
      o.writeSource = some ex →
      (ActionRunner.init ps o value).result = Except.error ex) ∧
    (hasCodeOf value = true → (binaryFlagOf value).truthy = true →
      o.zipError = some ex →
      (ActionRunner.init ps o value).result = Except.ok o.verify) ∧
    ((route_init ps o st reqBody).status ≠ 200 →
      (route_init ps o st reqBody).state = st) ∧
    ((st.rejectReinit && st.initialized) = false →
      (ActionRunner.init ps o value).result = Except.ok false →
      (route_init ps o st (some (Json.obj [("value", Json.obj value)]))).status = 502 ∧
      (route_init ps o st (some (Json.obj [("value", Json.obj value)]))).state = st) ∧
    ((st.rejectReinit && st.initialized) = false →
      (ActionRunner.init ps o value).result = Except.error ex →
      (route_init ps o st (some (Json.obj [("value", Json.obj value)]))).status = 502 ∧
      (route_init ps o st (some (Json.obj [("value", Json.obj value)]))).state = st) := by
  obtain ⟨ws, ze, epi, bld, vf⟩ := o
  refine ⟨?_, ?_, ?_, ?_, ?_, ?_⟩
  · intro hc hb hw hf
    simp only at hw
    subst hw
    rcases epi with e | pr
    · simp [ActionRunner.init, hc, hb]
    · rcases pr with _ | _
      · simp [ActionRunner.init, hc, hb]
      · rcases bld with e | pr
        · simp [ActionRunner.init, hc, hb]
        · rcases pr with _ | _
          · simp [ActionRunner.init, hc, hb]
          · exact absurd hf (by simp [hookFails])
  · intro hc hb hw
    simp only at hw
    subst hw
    simp [ActionRunner.init, hc, hb]
  · intro hc hb hz
    simp only at hz
    subst hz
    simp [ActionRunner.init, hc, hb]
  · intro hne
    rcases route_init_state_dichotomy ps ⟨ws, ze, epi, bld, vf⟩ st reqBody with ⟨hs, _⟩ | ⟨_, hs⟩
    · exact absurd hs hne
    · exact hs
  · intro hreject hfail
    have hbody : route_init ps ⟨ws, ze, epi, bld, vf⟩ st
        (some (Json.obj [("value", Json.obj value)])) =
        errorResponse st
          ([ps (some (Json.obj [("value", Json.obj value)])) ++ "\n"] ++
            (ActionRunner.init ps ⟨ws, ze, epi, bld, vf⟩ value).outWrites)
          ([ps (some (Json.obj [("value", Json.obj value)])) ++ "\n"] ++
            (ActionRunner.init ps ⟨ws, ze, epi, bld, vf⟩ value).errWrites)
          INIT_FAIL_MSG 502 := by
      unfold route_init
      simp [hreject, Json.truthy, Json.isDict, List.lookup, hfail]
    rw [hbody]
    exact ⟨rfl, rfl⟩
  · intro hreject hfail
    have hbody : route_init ps ⟨ws, ze, epi, bld, vf⟩ st
        (some (Json.obj [("value", Json.obj value)])) =
        errorResponse st
          ([ps (some (Json.obj [("value", Json.obj value)])) ++ "\n"] ++
            (ActionRunner.init ps ⟨ws, ze, epi, bld, vf⟩ value).outWrites)
          ([ps (some (Json.obj [("value", Json.obj value)])) ++ "\n"] ++
            (ActionRunner.init ps ⟨ws, ze, epi, bld, vf⟩ value).errWrites)
          (initExcMsg ex) 502 := by
      unfold route_init
      simp [hreject, Json.truthy, Json.isDict, List.lookup, hfail]
    rw [hbody]
    exact ⟨rfl, rfl⟩

/-- Witness for the amended C3: each conjunct applied at a concrete input
(failing build hook; raising source write; failing zip with a verifying
binary; a refused reinit leaving the state unchanged; a hook failure surfaced
as a 502 with unchanged state; a raising source write surfaced as a 502 with
unchanged state). -/
theorem c3_amended_witness :
    (ActionRunner.init (fun _ => "m")
        ⟨none, none, Except.ok PyRet.retOther, Except.ok PyRet.retFalse, true⟩
        [("code", Json.str "x")]).result = Except.ok false ∧
    (ActionRunner.init (fun _ => "m")
        ⟨some "disk full", none, Except.ok PyRet.retOther, Except.ok PyRet.retOther, true⟩
        [("code", Json.str "x")]).result = Except.error "disk full" ∧
    (ActionRunner.init (fun _ => "m")
        ⟨none, some "bad zip", Except.ok PyRet.retOther, Except.ok PyRet.retOther, true⟩
        [("code", Json.str "x"), ("binary", Json.bool true)]).result = Except.ok true ∧
    (route_init (fun _ => "m")
        ⟨none, none, Except.ok PyRet.retOther, Except.ok PyRet.retOther, true⟩
        ⟨true, true, false⟩ none).state = ⟨true, true, false⟩ ∧
    (route_init (fun _ => "m")
        ⟨none, none, Except.ok PyRet.retOther, Except.ok PyRet.retFalse, true⟩
        ⟨false, false, false⟩
        (some (Json.obj [("value", Json.obj [("code", Json.str "x")])]))).status = 502 ∧
    ((route_init (fun _ => "m")
        ⟨some "disk full", none, Except.ok PyRet.retOther, Except.ok PyRet.retOther, true⟩
        ⟨false, false, false⟩
        (some (Json.obj [("value", Json.obj [("code", Json.str "x")])]))).status = 502 ∧
      (route_init (fun _ => "m")
        ⟨some "disk full", none, Except.ok PyRet.retOther, Except.ok PyRet.retOther, true⟩
        ⟨false, false, false⟩
        (some (Json.obj [("value", Json.obj [("code", Json.str "x")])]))).state
        = ⟨false, false, false⟩) := by
  refine ⟨?_, ?_, ?_, ?_, ?_, ?_⟩
  · exact (c3_amended (fun _ => "m") _ ⟨false, false, false⟩ none _ "e").1 rfl rfl rfl rfl
  · exact (c3_amended (fun _ => "m") _ ⟨false, false, false⟩ none _ "disk full").2.1 rfl rfl rfl
  · exact (c3_amended (fun _ => "m") _ ⟨false, false, false⟩ none _ "bad zip").2.2.1 rfl rfl rfl
  · exact (c3_amended (fun _ => "m")
      ⟨none, none, Except.ok PyRet.retOther, Except.ok PyRet.retOther, true⟩
      ⟨true, true, false⟩ none [] "e").2.2.2.1 (by decide)
  · exact ((c3_amended (fun _ => "m")
      ⟨none, none, Except.ok PyRet.retOther, Except.ok PyRet.retFalse, true⟩
      ⟨false, false, false⟩ none [("code", Json.str "x")] "e").2.2.2.2.1 rfl (by rfl)).1
  · exact (c3_amended (fun _ => "m")
      ⟨some "disk full", none, Except.ok PyRet.retOther, Except.ok PyRet.retOther, true⟩
      ⟨false, false, false⟩ none [("code", Json.str "x")] "disk full").2.2.2.2.2 rfl (by rfl)

/-- The `json.dumps` model leaves the character `a` unescaped. -/
theorem escapeChar_a : escapeChar 'a' = ['a'] := by decide

/-- Escaping a run of `a` characters is the identity. -/
theorem escapeList_replicate_a (n : Nat) :
    escapeList (List.replicate n 'a') = List.replicate n 'a' := by
  induction n with
  | zero => rfl
  | succ n ih => simp [List.replicate_succ, escapeList, escapeChar_a, ih]

/-- Unfolding the `String.mk` constructor: its field is the given list. -/
theorem mk_data (l : List Char) : (String.mk l).data = l := rfl

/-- Length of a string of `n` repeated `a` characters. -/
theorem length_mk_replicate (n : Nat) :
    (String.mk (List.replicate n 'a')).length = n := by
  show (List.replicate n 'a').length = n
  simp

/-- The serialized length of the object mapping key `k` to a string of
131062 `a` characters is exactly 131071: nine characters of JSON structure
plus the raw string. -/
theorem dumps_arg_length :
    (dumps (Json.obj [("k", Json.str (String.mk (List.replicate 131062 'a')))])).length
      = 131071 := by
  simp only [dumps, dumpsFields, dumpKey, mk_data]
  rw [escapeList_replicate_a]
  simp only [String.length_append]
  rw [length_mk_replicate]
  decide

/-- Whatever the child process does, the spawn call `ActionRunner.run`
attempts is the one `spawnCallOf` describes. -/
theorem run_call (binary : String) (world : ChildWorld)
    (loads : String → Option Json) (args : Json) :
    (ActionRunner.run binary world loads args).call = spawnCallOf binary args := by
  simp only [ActionRunner.run]
  split
  · rfl
  · split <;> rfl

/-- C2 counterexample: at serialized-argument length exactly 131071 the code
still chooses the dual invocation (argv contains the serialized string), because
line 147 tests `len(input) > 131071`, not `>= 131071` as the claim states. -/
theorem c2_counterexample :
    (dumps (Json.obj [("k", Json.str (String.mk (List.replicate 131062 'a')))])).length
        ≥ 131071 ∧
    (ActionRunner.run "/action/exec" (fun _ => Except.ok ("", "")) (fun _ => none)
          (Json.obj [("k", Json.str (String.mk (List.replicate 131062 'a')))])).call.argv
      = ["/action/exec",
         dumps (Json.obj [("k", Json.str (String.mk (List.replicate 131062 'a')))])] := by
  constructor
  · rw [dumps_arg_length]
  · rw [run_call]
    unfold spawnCallOf MAX_ARG_STRLEN
    rw [if_neg (by rw [dumps_arg_length]; omega)]

/-- C2 as amended: `execute` chooses the stdin-only invocation exactly when
the serialized argument string is strictly longer than 131071 characters, and
the dual (argv and stdin) invocation exactly when the length is at most
131071; the boundary falls between 131071 and 131072, and the serialized
string is always written to the child's stdin. -/
theorem c2_threshold_amended (binary : String) (world : ChildWorld)
    (loads : String → Option Json) (args : Json) :
    ((ActionRunner.run binary world loads args).call.argv = [binary]
        ↔ (dumps args).length > 131071) ∧
    ((ActionRunner.run binary world loads args).call.argv = [binary, dumps args]
        ↔ (dumps args).length ≤ 131071) ∧
    (ActionRunner.run binary world loads args).call.stdinData = dumps args := by
  simp only [run_call]
  unfold spawnCallOf MAX_ARG_STRLEN
  by_cases h : (dumps args).length > 131071
  · rw [if_pos h]
    refine ⟨⟨fun _ => h, fun _ => rfl⟩,
      ⟨fun he => ?_, fun hle => absurd hle (by omega)⟩, rfl⟩
    simp at he
  · rw [if_neg h]
    refine ⟨⟨fun he => ?_, fun hgt => absurd hgt h⟩,
      ⟨fun _ => by omega, fun _ => rfl⟩, rfl⟩
    simp at he

/-- A character absent from a list is not found by `rfindChar`. -/
theorem rfindChar_eq_none {c : Char} {l : List Char} (h : c ∉ l) :
    rfindChar c l = none := by
  induction l with
  | nil => rfl
  | cons x xs ih =>
    simp only [List.mem_cons, not_or] at h
    simp only [rfindChar, ih h.2, if_neg (fun hh : x = c => h.1 hh.symm)]

/-- A hit in the right part of an append is reported shifted by the length of
the left part. -/
theorem rfindChar_append_some {c : Char} {b : List Char} {i : Nat}
    (h : rfindChar c b = some i) (a : List Char) :
    rfindChar c (a ++ b) = some (a.length + i) := by
  induction a with
  | nil => simpa using h
  | cons x xs ih =>
    simp only [List.cons_append, rfindChar, List.append_eq, ih, List.length_cons]
    congr 1
    omega

/-- The last newline of a list of the form `A ++ newline :: B` with a
newline-free `B` sits exactly at position `A.length`. -/
theorem rfindChar_last_newline (A B : List Char) (hB : '\n' ∉ B) :
    rfindChar '\n' (A ++ '\n' :: B) = some A.length := by
  have h1 : rfindChar '\n' ('\n' :: B) = some 0 := by
    simp [rfindChar, rfindChar_eq_none hB]
  simpa using rfindChar_append_some h1 A

/-- Python `strip` ignores one trailing newline. -/
theorem dropTrailingSpace_append_newline (x : List Char) :
    dropTrailingSpace (x ++ ['\n']) = dropTrailingSpace x := by
  have hp : isPySpace '\x0a' = true := rfl
  simp [dropTrailingSpace, List.reverse_append, List.dropWhile_cons, hp]

/-- Python `strip` of a string with one trailing newline equals the strip of
the string without it. -/
theorem stripList_append_newline (l : List Char) :
    stripList (l ++ ['\n']) = stripList l := by
  unfold stripList
  rw [List.dropWhile_append]
  split
  · rename_i hemp
    have hl : l.dropWhile isPySpace = [] := by simpa [List.isEmpty_iff] using hemp
    have hp : isPySpace '\x0a' = true := rfl
    rw [hl]
    simp [List.dropWhile_cons, hp, dropTrailingSpace, List.dropWhile_nil]
  · exact dropTrailingSpace_append_newline _

/-- Rebuilding a string from its own characters is the identity. -/
theorem mk_data_eta (s : String) : String.mk s.data = s := by
  cases s
  rfl

/-- A non-empty list of log lines renders to a character list ending in a
newline. -/
theorem logsOf_snoc (lines : List String) (hne : lines ≠ []) :
    ∃ A, (logsOf lines).data = A ++ ['\n'] := by
  induction lines with
  | nil => exact absurd rfl hne
  | cons l ls ih =>
    cases ls with
    | nil =>
      refine ⟨l.data, ?_⟩
      show (l ++ "\n" ++ logsOf []).data = l.data ++ ['\n']
      simp [logsOf, String.data_append]
    | cons m ms =>
      obtain ⟨A, hA⟩ := ih (by simp)
      refine ⟨l.data ++ '\n' :: A, ?_⟩
      show (l ++ "\n" ++ logsOf (m :: ms)).data = l.data ++ '\n' :: A ++ ['\n']
      simp [String.data_append, hA]

/-- When the captured stdout has no newline before its final position, the
whole (stripped) capture is the candidate result line and no log is
forwarded. -/
theorem splitOutput_nonewline (o : String)
    (hnl : '\n' ∉ o.data.take (o.data.length - 1)) :
    splitOutput o = (pyStrip o, "") := by
  unfold splitOutput
  rw [rfindChar_eq_none hnl]

/-- When the captured stdout is `A ++ newline :: B` with `B` non-empty and
newline-free before its final position, the split yields the stripped `B` as
candidate line and `A ++ newline` as forwarded log. -/
theorem splitOutput_append (o : String) (A B : List Char)
    (hdata : o.data = A ++ '\n' :: B) (hB : B ≠ []) (hnl : '\n' ∉ B.dropLast) :
    splitOutput o = (String.mk (stripList B), String.mk (A ++ ['\n'])) := by
  have hBlen : 1 ≤ B.length := by
    cases B with
    | nil => exact absurd rfl hB
    | cons x xs => simp
  have hlen : o.data.length - 1 = (A ++ ['\n']).length + (B.length - 1) := by
    rw [hdata]
    simp only [List.length_append, List.length_cons, List.length_nil]
    omega
  have htake : o.data.take (o.data.length - 1) = A ++ '\n' :: B.dropLast := by
    rw [hlen, hdata, show A ++ '\n' :: B = (A ++ ['\n']) ++ B by simp,
      List.take_append, List.dropLast_eq_take]
    simp
  have hfind : rfindChar '\n' (o.data.take (o.data.length - 1)) = some A.length := by
    rw [htake]
    exact rfindChar_last_newline A B.dropLast hnl
  unfold splitOutput
  rw [hfind]
  have hdrop : o.data.drop (A.length + 1) = B := by
    rw [hdata, show A ++ '\n' :: B = (A ++ ['\n']) ++ B by simp,
      show A.length + 1 = (A ++ ['\n']).length by simp]
    exact List.drop_left _ _
  have htk : o.data.take (A.length + 1) = A ++ ['\n'] := by
    rw [hdata, show A ++ '\n' :: B = (A ++ ['\n']) ++ B by simp,
      show A.length + 1 = (A ++ ['\n']).length by simp]
    exact List.take_left _ _
  simp only [hdrop, htk]
  rfl

/-- The split of `N` newline-terminated log lines followed by a trailing
JSON line (with or without a final newline): the candidate result line is the
stripped JSON line, the forwarded log is exactly the `N` log lines. -/
theorem splitOutput_logs (lines : List String) (jline tail : String)
    (hnl : '\n' ∉ jline.data) (hne : jline.data ≠ [])
    (htail : tail = "" ∨ tail = "\n") :
    splitOutput (logsOf lines ++ jline ++ tail) = (pyStrip jline, logsOf lines) := by
  have hjd : (jline ++ tail).data = jline.data ++ tail.data := String.data_append ..
  cases lines with
  | nil =>
    have hL : (logsOf [] ++ jline ++ tail).data = jline.data ++ tail.data := by
      show (("" : String) ++ jline ++ tail).data = _
      simp [String.data_append]
    rcases htail with rfl | rfl
    · have hmem : '\n' ∉ (logsOf [] ++ jline ++ "").data.take
          ((logsOf [] ++ jline ++ "").data.length - 1) := by
        rw [hL]
        simp only [show ("" : String).data = [] from rfl, List.append_nil]
        exact fun h => hnl (List.take_subset _ _ h)
      rw [splitOutput_nonewline _ hmem]
      refine Prod.ext ?_ rfl
      show pyStrip (logsOf [] ++ jline ++ "") = pyStrip jline
      unfold pyStrip
      rw [hL]
      simp [show ("" : String).data = [] from rfl]
    · have hmem : '\n' ∉ (logsOf [] ++ jline ++ "\n").data.take
          ((logsOf [] ++ jline ++ "\n").data.length - 1) := by
        rw [hL]
        simp only [show ("\n" : String).data = ['\n'] from rfl]
        rw [show (jline.data ++ ['\n']).length - 1 = jline.data.length by simp,
          List.take_left]
        exact hnl
      rw [splitOutput_nonewline _ hmem]
      refine Prod.ext ?_ rfl
      show pyStrip (logsOf [] ++ jline ++ "\n") = pyStrip jline
      unfold pyStrip
      rw [hL]
      simp only [show ("\n" : String).data = ['\n'] from rfl]
      rw [stripList_append_newline]
  | cons head rest =>
    obtain ⟨A, hA⟩ := logsOf_snoc (head :: rest) (by simp)
    have hLdata : ∀ t : String,
        (logsOf (head :: rest) ++ jline ++ t).data = A ++ '\n' :: (jline.data ++ t.data) := by
      intro t
      show ((logsOf (head :: rest) ++ jline) ++ t).data = _
      rw [String.data_append, String.data_append, hA]
      simp
    rcases htail with rfl | rfl
    · have hsplit := splitOutput_append (logsOf (head :: rest) ++ jline ++ "")
        A jline.data (by
          rw [hLdata]
          simp [show ("" : String).data = [] from rfl])
        hne
        (fun h => hnl (List.dropLast_subset _ h))
      rw [hsplit]
      refine Prod.ext rfl ?_
      show String.mk (A ++ ['\n']) = logsOf (head :: rest)
      rw [← hA]
    · have hsplit := splitOutput_append (logsOf (head :: rest) ++ jline ++ "\n")
        A (jline.data ++ ['\n']) (by rw [hLdata])
        (by simp)
        (by
          rw [List.dropLast_concat]
          exact hnl)
      rw [hsplit]
      refine Prod.ext ?_ ?_
      · show String.mk (stripList (jline.data ++ ['\n'])) = pyStrip jline
        rw [stripList_append_newline]
        rfl
      · show String.mk (A ++ ['\n']) = logsOf (head :: rest)
        rw [← hA]

/-- Joining a one-element list of strings gives back the string. -/
theorem join_singleton (s : String) : String.join [s] = s := by
  show "" ++ s = s
  cases s
  show String.mk ([] ++ _) = _
  rfl

/-- C1: when the child's stdout consists of `N` newline-terminated log lines
followed by one trailing JSON-object line (with or without a final newline,
`N` arbitrary, so in particular 0, 1 or many), `ActionRunner.run` returns
status 200 with exactly the parsed object, and the concatenation of its
stdout writes -- the forwarded log output -- is exactly the `N` log lines;
the case `lines = []`, `tail = ""` is the no-trailing-newline, JSON-only
recovery. -/
theorem c1_run_result_and_logs (binary : String) (world : ChildWorld)
    (loads : String → Option Json) (args : Json) (lines : List String)
    (jline tail errS : String) (d : List (String × Json))
    (htail : tail = "" ∨ tail = "\n")
    (hnl : '\n' ∉ jline.data) (hne : jline.data ≠ [])
    (hworld : world (spawnCallOf binary args)
      = Except.ok (logsOf lines ++ jline ++ tail, errS))
    (hloads : loads (pyStrip jline) = some (Json.obj d)) :
    (ActionRunner.run binary world loads args).code = 200 ∧
    (ActionRunner.run binary world loads args).result = RunValue.dictV d ∧
    String.join (ActionRunner.run binary world loads args).outWrites = logsOf lines := by
  have hsplit := splitOutput_logs lines jline tail hnl hne htail
  simp only [ActionRunner.run, hworld, hsplit, hloads]
  refine ⟨trivial, trivial, ?_⟩
  cases lines with
  | nil => rfl
  | cons head rest =>
    obtain ⟨A, hA⟩ := logsOf_snoc (head :: rest) (by simp)
    have hne2 : logsOf (head :: rest) ≠ "" := by
      intro hcon
      rw [hcon] at hA
      simp at hA
    simp only [if_neg hne2]
    exact join_singleton _

/-- Witness for C1 at a concrete run: one log line, then a JSON-object last
line with no trailing newline. -/
theorem c1_run_result_and_logs_witness :
    (ActionRunner.run "/action/exec" (fun _ => Except.ok ("hello\n\x7b\x7d", ""))
        (fun s => if s = "\x7b\x7d" then some (Json.obj []) else none)
        (Json.obj [])).code = 200 ∧
    (ActionRunner.run "/action/exec" (fun _ => Except.ok ("hello\n\x7b\x7d", ""))
        (fun s => if s = "\x7b\x7d" then some (Json.obj []) else none)
        (Json.obj [])).result = RunValue.dictV [] ∧
    String.join (ActionRunner.run "/action/exec"
        (fun _ => Except.ok ("hello\n\x7b\x7d", ""))
        (fun s => if s = "\x7b\x7d" then some (Json.obj []) else none)
        (Json.obj [])).outWrites = logsOf ["hello"] :=
  c1_run_result_and_logs "/action/exec" _ _ (Json.obj []) ["hello"] "\x7b\x7d" "" "" []
    (Or.inl rfl) (by decide) (by decide) rfl rfl

/-- C6: if the child process cannot be spawned or communicated with, the call
returns 502 with the error dictionary carrying the exception (its message);
if the child runs but its candidate result line does not parse to a JSON
object (any other JSON type, or a parse failure), the call returns 502 with
the error dictionary carrying exactly that literal candidate line. -/
theorem c6_failure_modes (binary : String) (world : ChildWorld)
    (loads : String → Option Json) (args : Json) (msg o errS : String) :
    (world (spawnCallOf binary args) = Except.error msg →
      (ActionRunner.run binary world loads args).code = 502 ∧
      (ActionRunner.run binary world loads args).result = RunValue.errExc msg) ∧
    (world (spawnCallOf binary args) = Except.ok (o, errS) →
      (∀ d, loads (splitOutput o).1 ≠ some (Json.obj d)) →
      (ActionRunner.run binary world loads args).code = 502 ∧
      (ActionRunner.run binary world loads args).result
        = RunValue.errStr (splitOutput o).1) := by
  constructor
  · intro hw
    simp only [ActionRunner.run, hw]
    exact ⟨trivial, trivial⟩
  · intro hw hbad
    simp only [ActionRunner.run, hw]
    rcases hl : loads (splitOutput o).1 with _ | j
    · simp only [hl]
      exact ⟨trivial, trivial⟩
    · cases j <;> first
        | exact absurd hl (hbad _)
        | (simp only [hl]; exact ⟨trivial, trivial⟩)

/-- Witness for C6: a spawn failure and, separately, an unparseable last
line, each at a concrete input. -/
theorem c6_failure_modes_witness :
    ((ActionRunner.run "/action/exec" (fun _ => Except.error "boom") (fun _ => none)
        (Json.obj [])).code = 502 ∧
      (ActionRunner.run "/action/exec" (fun _ => Except.error "boom") (fun _ => none)
        (Json.obj [])).result = RunValue.errExc "boom") ∧
    ((ActionRunner.run "/action/exec" (fun _ => Except.ok ("notjson", "")) (fun _ => none)
        (Json.obj [])).code = 502 ∧
      (ActionRunner.run "/action/exec" (fun _ => Except.ok ("notjson", "")) (fun _ => none)
        (Json.obj [])).result = RunValue.errStr (splitOutput "notjson").1) :=
  ⟨(c6_failure_modes "/action/exec" _ (fun _ => none) (Json.obj []) "boom" "x" "y").1 rfl,
    (c6_failure_modes "/action/exec" _ (fun _ => none) (Json.obj []) "m" "notjson" "").2 rfl
      (fun _ h => Option.noConfusion h)⟩

/-- Both streams of an `error(...)` response end with the sentinel line,
appended by `complete`. -/
theorem errorResponse_sentinel (st : ProxyState) (po pe : List String)
    (msg : String) (code : Nat) :
    (errorResponse st po pe msg code).outWrites.getLast? = some (LOG_SENTINEL ++ "\n") ∧
    (errorResponse st po pe msg code).errWrites.getLast? = some (LOG_SENTINEL ++ "\n") := by
  constructor <;> simp [errorResponse, List.getLast?_concat]

/-- C5 as amended: every `/run` completion, on every path (bad argument
shape, missing binary, environment failure, spawn failure, parse failure, or
success), ends its stdout and stderr writes with the sentinel line; an
`/init` completion either succeeds with status 200, or aborts with status 404,
or likewise ends both streams with the sentinel -- so, against the original
claim, the sentinel is **not** emitted after a successful initialization. -/
theorem c5_sentinel_amended (verifyNow : Bool) (world : ChildWorld)
    (loads : String → Option Json) (binary jsonifyExc : String)
    (st st2 : ProxyState) (environ : Environ) (reqBody reqBody2 : Option Json)
    (ps : Option Json → String) (o : InitOracle) :
    ((route_run verifyNow world loads binary jsonifyExc st environ reqBody).1.outWrites.getLast?
        = some (LOG_SENTINEL ++ "\n") ∧
      (route_run verifyNow world loads binary jsonifyExc st environ reqBody).1.errWrites.getLast?
        = some (LOG_SENTINEL ++ "\n")) ∧
    ((route_init ps o st2 reqBody2).status = 200 ∨
      (route_init ps o st2 reqBody2).status = 404 ∨
      ((route_init ps o st2 reqBody2).outWrites.getLast? = some (LOG_SENTINEL ++ "\n") ∧
        (route_init ps o st2 reqBody2).errWrites.getLast? = some (LOG_SENTINEL ++ "\n"))) := by
  constructor
  · unfold route_run
    dsimp only
    split
    all_goals try split
    all_goals try split
    all_goals try split
    all_goals try split
    all_goals constructor <;> simp [errorResponse, List.getLast?_concat]
  · unfold route_init
    split
    · exact Or.inr (Or.inr ⟨by simp, by simp⟩)
    · dsimp only
      split
      · exact Or.inr (Or.inl rfl)
      · split
        · split
          · exact Or.inr (Or.inr (errorResponse_sentinel _ _ _ _ _))
          · exact Or.inl rfl
          · exact Or.inr (Or.inr (errorResponse_sentinel _ _ _ _ _))
        · exact Or.inr (Or.inl rfl)

/-- C5 counterexample: a successful `/init` (status 200) whose trace contains
no sentinel write at all on either stream, because the success path of the
route returns the feature string without calling `complete`. -/
theorem c5_counterexample :
    (route_init (fun _ => "m")
        ⟨none, none, Except.ok PyRet.retOther, Except.ok PyRet.retOther, true⟩
        ⟨true, false, false⟩ (some (Json.obj []))).status = 200 ∧
    (LOG_SENTINEL ++ "\n") ∉ (route_init (fun _ => "m")
        ⟨none, none, Except.ok PyRet.retOther, Except.ok PyRet.retOther, true⟩
        ⟨true, false, false⟩ (some (Json.obj []))).outWrites ∧
    (LOG_SENTINEL ++ "\n") ∉ (route_init (fun _ => "m")
        ⟨none, none, Except.ok PyRet.retOther, Except.ok PyRet.retOther, true⟩
        ⟨true, false, false⟩ (some (Json.obj []))).errWrites := by
  refine ⟨rfl, by decide, by decide⟩

/-- Witness for the amended C2 at a concrete short argument object (length 2,
below the threshold: dual invocation). -/
theorem c2_threshold_amended_witness :
    (ActionRunner.run "/action/exec" (fun _ => Except.ok ("", "")) (fun _ => none)
        (Json.obj [])).call.argv = ["/action/exec", dumps (Json.obj [])] :=
  (c2_threshold_amended "/action/exec" (fun _ => Except.ok ("", "")) (fun _ => none)
    (Json.obj [])).2.1.mpr (by decide)

/-- Witness for the amended C8 at a concrete already-started state. -/
theorem c8_second_start_fails_witness :
    route_start ⟨false, true, true⟩ =
      ⟨⟨false, true, true⟩, 500, .jsonBody (.obj [("error", .str REJECT_START_MSG)]),
        [LOG_SENTINEL ++ "\n"], [REJECT_START_MSG ++ "\n", LOG_SENTINEL ++ "\n"]⟩ ∧
    500 ≤ (route_start ⟨false, true, true⟩).status ∧
    (route_start ⟨false, true, true⟩).status < 600 :=
  c8_second_start_fails _ rfl

end ActionProxy
